import Mathlib

/-!
Shallow embedding of the darksidelemm/radman2 repository (Python).

Source files modelled here:
  * `radman2/radman2.py`   — RadMan2 serial session: command framing, the
     measurement mode flag, device/probe info parsing and the measurement
     read loop;
  * `radman2/radhaz_standards.py` — FCC 96-326 limit tables and the
     percentage → field-strength conversions.

Modelling conventions:
  * Python `str` values are modelled as `List Char`; the bytes read from the
    serial port as `List Nat` (one entry per byte).
  * Python floats are modelled as exact rationals (`ℚ`) where the code only
    parses and does field arithmetic, and as real numbers (`ℝ`) where the code
    computes logarithms and square roots.  `float()` parsing is modelled on
    finite decimal literals; the special values inf/nan have no rational
    counterpart and are treated as parse failures (no claim depends on them).
  * A raised Python exception is an `Except.error` carrying the kind of the
    exception; logging calls are side effects and are modelled, where a claim
    refers to them, as the boolean condition under which the log call runs.
-/

/-- The kinds of Python exception relevant to the modelled code paths.
`valueError` covers both the explicit `raise ValueError(...)` calls and the
`ValueError` numpy raises for `argmin` of an empty sequence;
`unicodeDecodeError` is raised by `bytes.decode()` on invalid UTF-8;
`unimplementedError` is the explicit error the specification's taxonomy names
for the empty general-public table (the source never raises it — it is needed
to state that claim). -/
inductive PyError where
  | valueError
  | unicodeDecodeError
  | unimplementedError
deriving DecidableEq, Repr

/-- Python `str.strip()` (whitespace at both ends removed), on `List Char`. -/
def pyStrip (cs : List Char) : List Char :=
  ((cs.dropWhile Char.isWhitespace).reverse.dropWhile Char.isWhitespace).reverse

/-- Python `s.split(sep)` for a one-character separator: splitting the empty
string yields one empty field, like `"".split(',') == ['']`. -/
def splitChar (sep : Char) : List Char → List (List Char)
  | [] => [[]]
  | c :: cs =>
    let r := splitChar sep cs
    if c = sep then [] :: r
    else
      match r with
      | [] => [[c]]
      | g :: gs => (c :: g) :: gs

/-- The value of a list of decimal digit characters. -/
def digitsToNat (cs : List Char) : Nat :=
  cs.foldl (fun a c => a * 10 + (c.toNat - 48)) 0

/-- The syntactic content of a Python `float()` decimal literal:
sign, integer part, fractional part (with its digit count) and exponent.
Keeping this level separate from the rational value keeps the parser fully
kernel-decidable. -/
structure PyDecimal where
  neg : Bool
  intPart : Nat
  fracPart : Nat
  fracLen : Nat
  exp : Int
deriving DecidableEq, Repr

/-- The rational value a `PyDecimal` denotes. -/
def ratOfDecimal (d : PyDecimal) : ℚ :=
  (cond d.neg (-1) 1) * ((d.intPart : ℚ) + (d.fracPart : ℚ) / (10 : ℚ) ^ d.fracLen) *
    (10 : ℚ) ^ d.exp

/-- The optional exponent suffix accepted by Python `float()`:
either nothing is left, or `e`/`E`, an optional sign and at least one digit
consuming the rest of the input. -/
def pyDecExp (d : PyDecimal) (cs : List Char) : Option PyDecimal :=
  match cs with
  | [] => some d
  | c :: rest =>
    if c = 'e' ∨ c = 'E' then
      let (sgn, ds) : Int × List Char :=
        match rest with
        | '+' :: r => (1, r)
        | '-' :: r => (-1, r)
        | r => (1, r)
      let (ed, r3) := ds.span Char.isDigit
      if ed.isEmpty ∨ ¬ r3.isEmpty then none
      else some { d with exp := sgn * (digitsToNat ed : Int) }
    else none

/-- The unsigned part of a Python `float()` literal: digits, an optional
fractional part (at least one digit on one side of the point), and an
optional exponent; the whole input must be consumed. -/
def pyDecCore (neg : Bool) (cs : List Char) : Option PyDecimal :=
  let (ip, r1) := cs.span Char.isDigit
  match r1 with
  | '.' :: rest =>
    let (fp, r2) := rest.span Char.isDigit
    if ip.isEmpty ∧ fp.isEmpty then none
    else pyDecExp
      { neg := neg, intPart := digitsToNat ip, fracPart := digitsToNat fp,
        fracLen := fp.length, exp := 0 } r2
  | _ =>
    if ip.isEmpty then none
    else pyDecExp
      { neg := neg, intPart := digitsToNat ip, fracPart := 0, fracLen := 0, exp := 0 } r1

/-- The decimal literal `float(s)` accepts, after stripping surrounding
whitespace and an optional sign. -/
def pyFloatRepr? (cs : List Char) : Option PyDecimal :=
  match pyStrip cs with
  | '+' :: rest => pyDecCore false rest
  | '-' :: rest => pyDecCore true rest
  | rest => pyDecCore false rest

/-- Python `float(s)` on a finite decimal literal; `none` models a raised
`ValueError` (inf/nan have no rational counterpart and are treated as
failures — no modelled code path depends on them). -/
def pyFloat? (cs : List Char) : Option ℚ :=
  (pyFloatRepr? cs).map ratOfDecimal

/-- A UTF-8 continuation byte (`0x80–0xBF`). -/
def utf8Cont (b : Nat) : Bool := 128 ≤ b && b < 192

/-- Python `bytes.decode()` (strict UTF-8): `none` models a raised
`UnicodeDecodeError`.  Overlong encodings, surrogates, truncated sequences,
stray continuation bytes and out-of-range leads are all rejected, as CPython
rejects them. -/
def decodeUtf8 : List Nat → Option (List Char)
  | [] => some []
  | b :: bs =>
    if b < 128 then
      (decodeUtf8 bs).map (fun cs => Char.ofNat b :: cs)
    else if b < 194 then none
    else if b < 224 then
      match bs with
      | b1 :: bs1 =>
        if utf8Cont b1 then
          (decodeUtf8 bs1).map (fun cs => Char.ofNat ((b - 192) * 64 + (b1 - 128)) :: cs)
        else none
      | [] => none
    else if b < 240 then
      match bs with
      | b1 :: b2 :: bs2 =>
        let cp := (b - 224) * 4096 + (b1 - 128) * 64 + (b2 - 128)
        if utf8Cont b1 && utf8Cont b2 && decide (2048 ≤ cp) &&
            !(55296 ≤ cp && cp < 57344) then
          (decodeUtf8 bs2).map (fun cs => Char.ofNat cp :: cs)
        else none
      | _ => none
    else if b < 245 then
      match bs with
      | b1 :: b2 :: b3 :: bs3 =>
        let cp := (b - 240) * 262144 + (b1 - 128) * 4096 + (b2 - 128) * 64 + (b3 - 128)
        if utf8Cont b1 && utf8Cont b2 && utf8Cont b3 && decide (65536 ≤ cp) &&
            decide (cp ≤ 1114111) then
          (decodeUtf8 bs3).map (fun cs => Char.ofNat cp :: cs)
        else none
      | _ => none
    else none

/-! ## RadMan2 session layer (`radman2.py`)

The serial transport is modelled observationally: an operation returns the
list of frames it writes (each frame one `List Char`, the `;`-terminated
command) together with its return value; the line the device would send back
is passed in as an argument. -/

/-- `RadMan2.command` (radman2.py lines 195–212): while
`measurement_running` is set it returns `None` immediately and writes
nothing; otherwise it writes the `;`-terminated command and, unless
`noreply`, returns the stripped response line. -/
def command (measurement_running : Bool) (cmd : List Char) (noreply : Bool)
    (response : List Char) : List (List Char) × Option (List Char) :=
  if measurement_running then ([], none)
  else
    let written := [cmd ++ [';']]
    if noreply then (written, none)
    else (written, some (pyStrip response))

/-- `RadMan2.set_remote_mode` (lines 111–124): issue `REMOTE ON`/`REMOTE OFF`
and report whether the reply equalled `0;`. -/
def set_remote_mode (measurement_running : Bool) (remote_mode : Bool)
    (response : List Char) : List (List Char) × Bool :=
  let r :=
    if remote_mode then command measurement_running ("REMOTE ON".data) false response
    else command measurement_running ("REMOTE OFF".data) false response
  (r.1, decide (r.2 = some ("0;".data)))

/-- `RadMan2.stop_measurement` (lines 188–192): a single
`command("MEAS_STOP_CIB", noreply=True)` call; the `measurement_running`
flag is not touched. -/
def stop_measurement (measurement_running : Bool) (response : List Char) :
    List (List Char) × Option (List Char) :=
  command measurement_running ("MEAS_STOP_CIB".data) true response

/-- Observable effect of `RadMan2.start_measurement`: the resulting
`measurement_running` flag, the frames written, and whether a measurement
thread was spawned. -/
structure StartEffect where
  measurement_running : Bool
  writes : List (List Char)
  thread_started : Bool
deriving DecidableEq, Repr

/-- `RadMan2.start_measurement` (lines 168–185): if a measurement is already
running, return at once; otherwise set remote mode (its boolean result is
ignored), issue `MEAS_START_CIB` with no reply, set the flag and spawn the
measurement thread. -/
def start_measurement (measurement_running : Bool) (remoteReply : List Char) :
    StartEffect :=
  if measurement_running then
    { measurement_running := measurement_running, writes := [], thread_started := false }
  else
    { measurement_running := true,
      writes := (set_remote_mode false true remoteReply).1 ++
        (command false ("MEAS_START_CIB".data) true []).1,
      thread_started := true }

/-- `RadMan2.close` (lines 215–218): clear the flag, sleep a fixed settle
time (not modelled — pure delay), close the port.  Result: the new flag, the
frames written while closing, and whether the transport was closed.  No stop
command is sent here. -/
def close (_measurement_running : Bool) : Bool × List (List Char) × Bool :=
  (false, [], true)

/-- The record `RadMan2.get_device_info` builds (lines 63–74). -/
structure DeviceInfo where
  product_name : List Char
  production_id : List Char
  serial_number : List Char
  device_id : List Char
  device_type : List Char
  firmware_version : List Char
  calibration_date : List Char
  calibration_due : List Char
  num_options : List Char
  options_name : List Char
deriving DecidableEq, Repr

/-- `RadMan2.get_device_info` (lines 52–76) applied to the reply line: drop
the trailing terminator (`data[:-1]`), split on `,`, require exactly 10
fields (else `ValueError`), and map them positionally. -/
def get_device_info (data : List Char) : Except PyError DeviceInfo :=
  let fields := splitChar ',' data.dropLast
  if fields.length ≠ 10 then .error .valueError
  else .ok {
    product_name := fields.getD 0 [],
    production_id := fields.getD 1 [],
    serial_number := fields.getD 2 [],
    device_id := fields.getD 3 [],
    device_type := fields.getD 4 [],
    firmware_version := fields.getD 5 [],
    calibration_date := fields.getD 6 [],
    calibration_due := fields.getD 7 [],
    num_options := fields.getD 8 [],
    options_name := fields.getD 9 [] }

/-- The record `RadMan2.get_probe_info` builds (lines 89–108): six mandatory
fields and six optional ones that stay absent when the best-effort group
fails partway. -/
structure ProbeInfo where
  product_name : List Char
  production_id : List Char
  serial_number : List Char
  calibration_date : List Char
  calibration_due : List Char
  field_type : List Char
  e_field_lower_frequency_hz : Option ℚ := none
  e_field_upper_frequency_hz : Option ℚ := none
  h_field_lower_frequency_hz : Option ℚ := none
  h_field_upper_frequency_hz : Option ℚ := none
  shaped : Option (List Char) := none
  standard_name : Option (List Char) := none
deriving DecidableEq, Repr

/-- `RadMan2.get_probe_info` (lines 78–108) applied to the reply line: drop
the terminator, split on `,`, require exactly 12 fields (else `ValueError`);
map the first six; then, inside a `try` block whose exception handler only
logs a warning, convert fields 6–9 with `float()` one at a time (the dict is
mutated incrementally, so a failure keeps what was already assigned) and
finally copy fields 10 and 11. -/
def get_probe_info (data : List Char) : Except PyError ProbeInfo :=
  let fields := splitChar ',' data.dropLast
  if fields.length ≠ 12 then .error .valueError
  else
    let base : ProbeInfo := {
      product_name := fields.getD 0 [],
      production_id := fields.getD 1 [],
      serial_number := fields.getD 2 [],
      calibration_date := fields.getD 3 [],
      calibration_due := fields.getD 4 [],
      field_type := fields.getD 5 [] }
    match pyFloat? (fields.getD 6 []) with
    | none => .ok base
    | some v6 =>
      let o1 := { base with e_field_lower_frequency_hz := some v6 }
      match pyFloat? (fields.getD 7 []) with
      | none => .ok o1
      | some v7 =>
        let o2 := { o1 with e_field_upper_frequency_hz := some v7 }
        match pyFloat? (fields.getD 8 []) with
        | none => .ok o2
        | some v8 =>
          let o3 := { o2 with h_field_lower_frequency_hz := some v8 }
          match pyFloat? (fields.getD 9 []) with
          | none => .ok o3
          | some v9 =>
            .ok { o3 with
              h_field_upper_frequency_hz := some v9,
              shaped := some (fields.getD 10 []),
              standard_name := some (fields.getD 11 []) }

/-- One parsed measurement sample (radman2.py lines 153–159). -/
structure MeasurementSample where
  e_field_percentage : ℚ
  h_field_percentage : ℚ
  unknown : List Char
  e_field_ok : List Char
  h_fields_ok : List Char
  battery_percentage : ℚ
deriving DecidableEq, Repr

/-- Outcome of one iteration of `RadMan2.measurement_loop`: an exception
escaped the loop body, the line was logged and discarded (the loop
continues), or a sample was delivered to the callback. -/
inductive LoopStep where
  | escaped
  | discarded
  | sample (s : MeasurementSample)
deriving DecidableEq, Repr

/-- The `try` block of `RadMan2.measurement_loop` (lines 145–165) applied to
the decoded, stripped line: drop the last character, split on `,`; a field
count other than 6 is logged and discarded; a `float()` failure on fields 0,
1 or 5 raises inside the `try`, is caught, logged and discarded; otherwise a
sample is built with fields 0 and 1 divided by 100 and field 5 unscaled. -/
def parse_measurement_line (line : List Char) : LoopStep :=
  let fields := splitChar ',' line.dropLast
  if fields.length ≠ 6 then .discarded
  else
    match pyFloat? (fields.getD 0 []), pyFloat? (fields.getD 1 []),
        pyFloat? (fields.getD 5 []) with
    | some e, some h, some b =>
      .sample {
        e_field_percentage := e / 100,
        h_field_percentage := h / 100,
        unknown := fields.getD 2 [],
        e_field_ok := fields.getD 3 [],
        h_fields_ok := fields.getD 4 [],
        battery_percentage := b }
    | _, _, _ => .discarded

/-- One full iteration of `RadMan2.measurement_loop` (lines 141–165) on the
bytes returned by `readline()`: `decode().strip()` happens OUTSIDE the `try`
block (line 143), so a `UnicodeDecodeError` escapes the loop; everything
after it is inside the `try`. -/
def measurement_iteration (bytes : List Nat) : LoopStep :=
  match decodeUtf8 bytes with
  | none => .escaped
  | some cs => parse_measurement_line (pyStrip cs)

/-! ## RADHAZ limit standard (`radhaz_standards.py`, class `FCC96326`)

Frequencies are exact rationals (the `np.arange` grids are generated from
decimal start/step values); the limit values are reals, since the
300–3000 MHz band computes square roots.  `np.arange start stop step`
produces `start + k*step` for `k = 0, …, ⌈(stop-start)/step⌉ - 1`. -/

/-- `np.arange` over exact rationals. -/
def arangeQ (start stop step : ℚ) : List ℚ :=
  (List.range (⌈(stop - start) / step⌉.toNat)).map (fun k : ℕ => start + (k : ℚ) * step)

/-- `FCC96326.init_tables_occupational` (radhaz_standards.py lines 30–104):
the frequency grid, six bands appended in order. -/
def occupational_frequency_mhz : List ℚ :=
  arangeQ (3/1000) (1/10) (1/100) ++ arangeQ (1/10) 3 (1/100) ++
  arangeQ 3 30 (1/100) ++ arangeQ 30 100 (1/100) ++
  arangeQ 100 300 (1/100) ++ arangeQ 300 3000 (1/100)

/-- The E-field limit array built alongside the frequency grid:
614 V/m, 614 V/m, 1842/f, 61.4 V/m, 61.4 V/m, sqrt((f/300)·377). -/
noncomputable def occupational_efield : List ℝ :=
  (arangeQ (3/1000) (1/10) (1/100)).map (fun _ => 614) ++
  (arangeQ (1/10) 3 (1/100)).map (fun _ => 614) ++
  (arangeQ 3 30 (1/100)).map (fun f => 1842 / (f : ℝ)) ++
  (arangeQ 30 100 (1/100)).map (fun _ => 61.4) ++
  (arangeQ 100 300 (1/100)).map (fun _ => 61.4) ++
  (arangeQ 300 3000 (1/100)).map (fun f => Real.sqrt ((f : ℝ) / 300 * 377))

/-- The H-field limit array built alongside the frequency grid:
163 A/m, 16.3/f, 16.3/f, 16.3/f, 0.163 A/m, sqrt((f/300)/377). -/
noncomputable def occupational_hfield : List ℝ :=
  (arangeQ (3/1000) (1/10) (1/100)).map (fun _ => 163) ++
  (arangeQ (1/10) 3 (1/100)).map (fun f => 16.3 / (f : ℝ)) ++
  (arangeQ 3 30 (1/100)).map (fun f => 16.3 / (f : ℝ)) ++
  (arangeQ 30 100 (1/100)).map (fun f => 16.3 / (f : ℝ)) ++
  (arangeQ 100 300 (1/100)).map (fun _ => 0.163) ++
  (arangeQ 300 3000 (1/100)).map (fun f => Real.sqrt ((f : ℝ) / 300 / 377))

/-- `FCC96326.init_tables_general_public` (lines 107–118): all three arrays
are left empty (the body is a TODO). -/
def general_public_frequency_mhz : List ℚ := []

/-- The (empty) general-public E-field limit array. -/
def general_public_efield : List ℝ := []

/-- The (empty) general-public H-field limit array. -/
def general_public_hfield : List ℝ := []

/-- The first index at which the nonempty list `x :: l` attains its minimum:
`0` when the head is no larger than the tail's minimum, otherwise one past
the tail's first minimal index. -/
def argminCons (x : ℚ) : List ℚ → Nat
  | [] => 0
  | y :: ys =>
    if (y :: ys).getD (argminCons y ys) 0 < x then argminCons y ys + 1 else 0

/-- `np.argmin`: the first index at which a list attains its minimum;
`none` models the `ValueError` numpy raises on an empty sequence. -/
def argmin? : List ℚ → Option Nat
  | [] => none
  | x :: xs => some (argminCons x xs)

/-- `FCC96326.efield_limit` (lines 121–127): index of the entry with minimal
absolute frequency difference via `argmin`, then that entry of the E-field
array.  numpy raises `ValueError` when the table is empty. -/
noncomputable def efield_limit (freqs : List ℚ) (efield : List ℝ)
    (frequency_mhz : ℚ) : Except PyError ℝ :=
  match argmin? (freqs.map (fun x => |x - frequency_mhz|)) with
  | none => .error .valueError
  | some idx => .ok (efield.getD idx 0)

/-- `FCC96326.hfield_limit` (lines 130–135): same lookup against the H-field
array. -/
noncomputable def hfield_limit (freqs : List ℚ) (hfield : List ℝ)
    (frequency_mhz : ℚ) : Except PyError ℝ :=
  match argmin? (freqs.map (fun x => |x - frequency_mhz|)) with
  | none => .error .valueError
  | some idx => .ok (hfield.getD idx 0)

/-- The condition under which `efield_limit`/`hfield_limit` call
`logging.warning` (lines 124–125 and 132–133): the nearest table frequency
differs from the query by more than 1.0 MHz. -/
def limit_lookup_warns (freqs : List ℚ) (frequency_mhz : ℚ) : Bool :=
  match argmin? (freqs.map (fun x => |x - frequency_mhz|)) with
  | none => false
  | some idx => decide (|freqs.getD idx 0 - frequency_mhz| > 1)

/-- `FCC96326.percentage_to_efield` (lines 138–145): 0 maps to 0 before any
lookup; otherwise `dB = 10·log10(pct/100)`, `ratio = 10^(dB/20)`, times the
E-field limit at the query frequency. -/
noncomputable def percentage_to_efield (freqs : List ℚ) (efield : List ℝ)
    (percentage : ℚ) (frequency_mhz : ℚ) : Except PyError ℝ :=
  if percentage = 0 then .ok 0
  else
    (efield_limit freqs efield frequency_mhz).map
      (fun lim => (10 : ℝ) ^ ((10 * Real.logb 10 ((percentage : ℝ) / 100)) / 20) * lim)

/-- `FCC96326.percentage_to_hfield` (lines 148–154): the same computation
against the H-field limit. -/
noncomputable def percentage_to_hfield (freqs : List ℚ) (hfield : List ℝ)
    (percentage : ℚ) (frequency_mhz : ℚ) : Except PyError ℝ :=
  if percentage = 0 then .ok 0
  else
    (hfield_limit freqs hfield frequency_mhz).map
      (fun lim => (10 : ℝ) ^ ((10 * Real.logb 10 ((percentage : ℝ) / 100)) / 20) * lim)

example : pyFloatRepr? ("100".data) = some ⟨false, 100, 0, 0, 0⟩ := by decide
example : pyFloatRepr? ("OK".data) = none := by decide
example : pyFloatRepr? ("-2.5e1".data) = some ⟨true, 2, 5, 1, 1⟩ := by decide
example : pyFloat? ("OK".data) = none := by decide
example : pyFloat? ("100".data) = some 100 := by
  have h : pyFloatRepr? ("100".data) = some ⟨false, 100, 0, 0, 0⟩ := by decide
  rw [pyFloat?, h]
  norm_num [ratOfDecimal]
example : pyFloat? ("-2.5e1".data) = some (-25) := by
  have h : pyFloatRepr? ("-2.5e1".data) = some ⟨true, 2, 5, 1, 1⟩ := by decide
  rw [pyFloat?, h]
  norm_num [ratOfDecimal]
example : decodeUtf8 [255] = none := rfl
example : decodeUtf8 [104, 105] = some ['h', 'i'] := rfl
example : splitChar ',' ("a,b".data) = [['a'], ['b']] := rfl
example : splitChar ',' [] = [[]] := rfl

/-! ## Helper lemmas -/

/-- The `try` block of the measurement loop swallows every failure: no line,
whatever its content, makes `parse_measurement_line` escape. -/
theorem parse_measurement_line_not_escaped (line : List Char) :
    parse_measurement_line line ≠ LoopStep.escaped := by
  rw [parse_measurement_line]
  split
  · simp
  · split <;> simp

/-- `argmin?` yields `none` exactly on the empty list. -/
theorem argmin_eq_none_iff (l : List ℚ) : argmin? l = none ↔ l = [] := by
  cases l <;> simp [argmin?]

/-- `argminCons x l` is an in-range index of `x :: l` attaining its
minimum. -/
theorem argminCons_spec (l : List ℚ) : ∀ x : ℚ,
    argminCons x l < (x :: l).length ∧
      ∀ j, j < (x :: l).length →
        (x :: l).getD (argminCons x l) 0 ≤ (x :: l).getD j 0 := by
  induction l with
  | nil =>
    intro x
    refine ⟨by simp [argminCons], ?_⟩
    intro j hj
    have hj0 : j = 0 := Nat.lt_one_iff.mp (by simpa using hj)
    simp [hj0, argminCons]
  | cons y ys ih =>
    intro x
    obtain ⟨hlen, hmin⟩ := ih y
    rw [argminCons]
    by_cases hlt : (y :: ys).getD (argminCons y ys) 0 < x
    · rw [if_pos hlt]
      refine ⟨by simpa using hlen, ?_⟩
      intro k hk
      cases k with
      | zero => simpa using le_of_lt hlt
      | succ k' =>
        have hk' : k' < (y :: ys).length := by simpa using hk
        simpa using hmin k' hk'
    · rw [if_neg hlt]
      refine ⟨by simp, ?_⟩
      intro k hk
      cases k with
      | zero => simp
      | succ k' =>
        have hk' : k' < (y :: ys).length := by simpa using hk
        have h1 : x ≤ (y :: ys).getD (argminCons y ys) 0 := le_of_not_lt hlt
        have h2 : (y :: ys).getD (argminCons y ys) 0 ≤ (y :: ys).getD k' 0 :=
          hmin k' hk'
        simpa using le_trans h1 h2

/-- `argmin?` on a nonempty list returns an in-range index attaining the
minimum value. -/
theorem argmin_spec (l : List ℚ) (hne : l ≠ []) :
    ∃ i, argmin? l = some i ∧ i < l.length ∧
      ∀ j, j < l.length → l.getD i 0 ≤ l.getD j 0 := by
  cases l with
  | nil => exact absurd rfl hne
  | cons x xs =>
    obtain ⟨hlen, hmin⟩ := argminCons_spec xs x
    exact ⟨argminCons x xs, rfl, hlen, hmin⟩

/-- The first `np.arange` band of the occupational table has 10 entries
(0.003, 0.013, …, 0.093). -/
theorem occ_first_band_size :
    (⌈(((1:ℚ)/10 - 3/1000) / (1/100))⌉).toNat = 10 := by
  have h1 : (((1:ℚ)/10 - 3/1000) / (1/100)) = 97/10 := by norm_num
  have h2 : ⌈(97/10 : ℚ)⌉ = 10 := by
    rw [Int.ceil_eq_iff]
    constructor <;> norm_num
  rw [h1, h2]
  rfl

/-- 0.003 MHz is an entry of the occupational frequency table (the first). -/
theorem mem_occupational_first : (3/1000 : ℚ) ∈ occupational_frequency_mhz := by
  rw [occupational_frequency_mhz]
  apply List.mem_append_left
  apply List.mem_append_left
  apply List.mem_append_left
  apply List.mem_append_left
  apply List.mem_append_left
  rw [arangeQ]
  apply List.mem_map.mpr
  refine ⟨0, ?_, by norm_num⟩
  rw [occ_first_band_size]
  decide

/-- The occupational frequency table is nonempty. -/
theorem occupational_frequency_ne_nil : occupational_frequency_mhz ≠ [] :=
  List.ne_nil_of_mem mem_occupational_first

/-- On any nonempty table, `efield_limit` / `hfield_limit` return the limit
entry at an index minimising the absolute frequency difference, and the
warning condition is exactly that this minimal difference exceeds
1.0 MHz. -/
theorem nearest_lookup_of_ne_nil (freqs : List ℚ) (efield hfield : List ℝ)
    (f : ℚ) (hne : freqs ≠ []) :
    ∃ i, i < freqs.length ∧
      (∀ j, j < freqs.length → |freqs.getD i 0 - f| ≤ |freqs.getD j 0 - f|) ∧
      efield_limit freqs efield f = .ok (efield.getD i 0) ∧
      hfield_limit freqs hfield f = .ok (hfield.getD i 0) ∧
      limit_lookup_warns freqs f = decide (|freqs.getD i 0 - f| > 1) := by
  have hmapne : freqs.map (fun x => |x - f|) ≠ [] := by simp [hne]
  obtain ⟨i, hi, hilen, hmin⟩ := argmin_spec _ hmapne
  have hlen : i < freqs.length := by simpa using hilen
  have hgetD : ∀ j, j < freqs.length →
      (freqs.map (fun x => |x - f|)).getD j 0 = |freqs.getD j 0 - f| := by
    intro j hj
    rw [List.getD_eq_getElem _ _ (by simpa using hj), List.getElem_map,
      List.getD_eq_getElem _ _ hj]
  refine ⟨i, hlen, ?_, ?_, ?_, ?_⟩
  · intro j hj
    have h := hmin j (by simpa using hj)
    rwa [hgetD i hlen, hgetD j hj] at h
  · rw [efield_limit, hi]
  · rw [hfield_limit, hi]
  · rw [limit_lookup_warns, hi]

/-! ## The claims -/

/-- Claim C2 — while `measurement_running` is true, `command()` writes no
bytes to the transport and returns `None`, for every command string,
`noreply` flag and pending device output. -/
theorem command_guard_while_measuring (cmd response : List Char) (noreply : Bool) :
    command true cmd noreply response = ([], none) := rfl

/-- Claim C10 — calling `start_measurement` while `measurement_running` is
already true is a no-op: the flag keeps its value, no `REMOTE ON` or
`MEAS_START_CIB` frame is written, and no measurement thread is spawned. -/
theorem start_measurement_noop_when_running (remoteReply : List Char) :
    start_measurement true remoteReply =
      { measurement_running := true, writes := [], thread_started := false } := rfl

/-- Claim C1 — contrary to the claim, with `measurement_running` set,
`stop_measurement` writes nothing (the guard in `command()` returns `None`
before the write), and `close()` writes nothing either: no `MEAS_STOP_CIB;`
frame ever reaches the transport while a measurement runs, and the shutdown
path closes the transport without issuing the stop command. -/
theorem stop_measurement_blocked_while_running :
    stop_measurement true [] = ([], none) ∧ (close true).2.1 = [] ∧
    (close true).2.2 = true :=
  ⟨rfl, rfl, rfl⟩

/-- Claim C3, counterexample — the byte 0xFF does not decode as UTF-8, and
`decode()` sits outside the loop's `try` block, so this line makes the
iteration escape with an exception instead of being logged and discarded. -/
theorem measurement_iteration_escapes_on_invalid_utf8 :
    measurement_iteration [255] = LoopStep.escaped := rfl

/-- Claim C3, amended — an iteration of the measurement loop escapes with an
exception exactly when the line's bytes fail UTF-8 decoding; for every line
that decodes, all parse failures (wrong field count, unparsable numeric
fields) are logged and discarded and the loop continues. -/
theorem measurement_loop_escapes_iff_undecodable (bytes : List Nat) :
    measurement_iteration bytes = LoopStep.escaped ↔ decodeUtf8 bytes = none := by
  rw [measurement_iteration]
  cases h : decodeUtf8 bytes with
  | none => simp
  | some cs => simp [parse_measurement_line_not_escaped (pyStrip cs)]

/-- Claim C4 — a measurement line whose terminator-stripped body splits into
exactly 6 fields with fields 0, 1 and 5 parsing as floats produces a sample
with the raw e-field and h-field values divided by 100 and the battery value
unscaled (fields 2, 3 and 4 pass through as text). -/
theorem measurement_line_scaling (line : List Char)
    (f0 f1 f2 f3 f4 f5 : List Char) (e h b : ℚ)
    (hfs : splitChar ',' line.dropLast = [f0, f1, f2, f3, f4, f5])
    (he : pyFloat? f0 = some e) (hh : pyFloat? f1 = some h)
    (hb : pyFloat? f5 = some b) :
    parse_measurement_line line = .sample {
      e_field_percentage := e / 100,
      h_field_percentage := h / 100,
      unknown := f2,
      e_field_ok := f3,
      h_fields_ok := f4,
      battery_percentage := b } := by
  rw [parse_measurement_line]
  simp [hfs, he, hh, hb]

/-- Claim C4, witness — the line `"0,8,0,OK,OK,100;"` yields
`e_field_percentage = 0`, `h_field_percentage = 8/100 = 0.08` and
`battery_percentage = 100` (battery unscaled). -/
theorem measurement_line_scaling_witness :
    parse_measurement_line ("0,8,0,OK,OK,100;".data) = .sample {
      e_field_percentage := 0,
      h_field_percentage := 8/100,
      unknown := ['0'],
      e_field_ok := ['O', 'K'],
      h_fields_ok := ['O', 'K'],
      battery_percentage := 100 } := by
  have h0 : pyFloat? ['0'] = some 0 := by
    have h : pyFloatRepr? ['0'] = some ⟨false, 0, 0, 0, 0⟩ := by decide
    rw [pyFloat?, h]
    norm_num [ratOfDecimal]
  have h8 : pyFloat? ['8'] = some 8 := by
    have h : pyFloatRepr? ['8'] = some ⟨false, 8, 0, 0, 0⟩ := by decide
    rw [pyFloat?, h]
    norm_num [ratOfDecimal]
  have h100 : pyFloat? ['1', '0', '0'] = some 100 := by
    have h : pyFloatRepr? ['1', '0', '0'] = some ⟨false, 100, 0, 0, 0⟩ := by decide
    rw [pyFloat?, h]
    norm_num [ratOfDecimal]
  have hmain := measurement_line_scaling ("0,8,0,OK,OK,100;".data)
    ['0'] ['8'] ['0'] ['O', 'K'] ['O', 'K'] ['1', '0', '0'] 0 8 100
    (by decide) h0 h8 h100
  rw [hmain]
  simp only [LoopStep.sample.injEq, MeasurementSample.mk.injEq]
  norm_num

/-- Claim C5 — `get_device_info` fails with an error exactly when the
terminator-stripped reply does not split into 10 comma-separated fields;
on exactly 10 fields it returns the record with the fields mapped
positionally. -/
theorem device_info_field_count (data : List Char) :
    ((∃ er, get_device_info data = Except.error er) ↔
      (splitChar ',' data.dropLast).length ≠ 10) ∧
    (∀ f0 f1 f2 f3 f4 f5 f6 f7 f8 f9 : List Char,
      splitChar ',' data.dropLast = [f0, f1, f2, f3, f4, f5, f6, f7, f8, f9] →
      get_device_info data = .ok {
        product_name := f0, production_id := f1, serial_number := f2,
        device_id := f3, device_type := f4, firmware_version := f5,
        calibration_date := f6, calibration_due := f7, num_options := f8,
        options_name := f9 }) := by
  constructor
  · by_cases hlen : (splitChar ',' data.dropLast).length = 10
    · rw [get_device_info]
      simp [hlen]
    · rw [get_device_info]
      simp only [if_pos hlen]
      simp [hlen]
  · intro f0 f1 f2 f3 f4 f5 f6 f7 f8 f9 hfs
    rw [get_device_info]
    simp [hfs]

/-- Claim C6 — a 12-field `Probe_INFO?` reply whose four optional numeric
fields all fail `float()` yields the record with the six mandatory fields
mapped positionally and every optional field absent (the exception is caught
and only logged: nothing escapes); a reply that does not split into 12
fields fails with an error. -/
theorem probe_info_optional_fields_absent (data : List Char)
    (f0 f1 f2 f3 f4 f5 f6 f7 f8 f9 f10 f11 : List Char)
    (hfs : splitChar ',' data.dropLast =
      [f0, f1, f2, f3, f4, f5, f6, f7, f8, f9, f10, f11])
    (h6 : pyFloat? f6 = none) (h7 : pyFloat? f7 = none)
    (h8 : pyFloat? f8 = none) (h9 : pyFloat? f9 = none) :
    get_probe_info data = .ok {
      product_name := f0, production_id := f1, serial_number := f2,
      calibration_date := f3, calibration_due := f4, field_type := f5,
      e_field_lower_frequency_hz := none, e_field_upper_frequency_hz := none,
      h_field_lower_frequency_hz := none, h_field_upper_frequency_hz := none,
      shaped := none, standard_name := none } ∧
    (∀ d2 : List Char, (splitChar ',' d2.dropLast).length ≠ 12 →
      get_probe_info d2 = .error .valueError) := by
  constructor
  · rw [get_probe_info]
    simp [hfs, h6]
  · intro d2 hlen
    rw [get_probe_info]
    simp [hlen]

/-- Claim C7, counterexample — on the general-public (empty) table, a limit
lookup at 100 MHz fails with the `ValueError` that `argmin` raises on an
empty sequence, not with the explicit `UnimplementedError` the claim
demands. -/
theorem general_public_lookup_error_kind :
    efield_limit general_public_frequency_mhz general_public_efield 100 =
      .error .valueError ∧
    hfield_limit general_public_frequency_mhz general_public_hfield 100 =
      .error .valueError ∧
    efield_limit general_public_frequency_mhz general_public_efield 100 ≠
      .error .unimplementedError ∧
    hfield_limit general_public_frequency_mhz general_public_hfield 100 ≠
      .error .unimplementedError := by
  have he : efield_limit general_public_frequency_mhz general_public_efield 100 =
      .error .valueError := rfl
  have hh : hfield_limit general_public_frequency_mhz general_public_hfield 100 =
      .error .valueError := rfl
  refine ⟨he, hh, ?_, ?_⟩
  · rw [he]
    simp
  · rw [hh]
    simp

/-- Claim C7, amended — on the general-public variant every `efield_limit` /
`hfield_limit` call does fail, but because the code attempts `argmin` on the
empty frequency array, which raises numpy's `ValueError`; there is no
explicit `UnimplementedError` guard. -/
theorem general_public_lookup_raises_value_error (f : ℚ) :
    efield_limit general_public_frequency_mhz general_public_efield f =
      .error .valueError ∧
    hfield_limit general_public_frequency_mhz general_public_hfield f =
      .error .valueError :=
  ⟨rfl, rfl⟩

/-- Claim C9 — for every query frequency, the occupational-table lookup
returns (never an error) the E- and H-field limit values at an index whose
table frequency minimises the absolute difference to the query, and the
warning fires exactly when that minimal difference exceeds 1.0 MHz. -/
theorem nearest_lookup_total (f : ℚ) :
    ∃ i, i < occupational_frequency_mhz.length ∧
      (∀ j, j < occupational_frequency_mhz.length →
        |occupational_frequency_mhz.getD i 0 - f| ≤
          |occupational_frequency_mhz.getD j 0 - f|) ∧
      efield_limit occupational_frequency_mhz occupational_efield f =
        .ok (occupational_efield.getD i 0) ∧
      hfield_limit occupational_frequency_mhz occupational_hfield f =
        .ok (occupational_hfield.getD i 0) ∧
      limit_lookup_warns occupational_frequency_mhz f =
        decide (|occupational_frequency_mhz.getD i 0 - f| > 1) :=
  nearest_lookup_of_ne_nil occupational_frequency_mhz occupational_efield
    occupational_hfield f occupational_frequency_ne_nil

/-- Claim C8 — for a frequency of the occupational table, converting 0 %
yields exactly 0 and converting 100 % yields exactly the table limit
(dB = 0, ratio = 1), for both the E-field and the H-field conversion. -/
theorem percentage_conversion_identity (f : ℚ)
    (hf : f ∈ occupational_frequency_mhz) :
    percentage_to_efield occupational_frequency_mhz occupational_efield 0 f =
      .ok 0 ∧
    percentage_to_efield occupational_frequency_mhz occupational_efield 100 f =
      efield_limit occupational_frequency_mhz occupational_efield f ∧
    percentage_to_hfield occupational_frequency_mhz occupational_hfield 0 f =
      .ok 0 ∧
    percentage_to_hfield occupational_frequency_mhz occupational_hfield 100 f =
      hfield_limit occupational_frequency_mhz occupational_hfield f := by
  have hratio :
      (10 : ℝ) ^ ((10 * Real.logb 10 (((100 : ℚ) : ℝ) / 100)) / 20) = 1 := by
    have h1 : (((100 : ℚ) : ℝ) / 100) = 1 := by norm_num
    have h2 : (10 * (0 : ℝ)) / 20 = 0 := by ring
    rw [h1, Real.logb_one, h2, Real.rpow_zero]
  refine ⟨?_, ?_, ?_, ?_⟩
  · simp [percentage_to_efield]
  · rw [percentage_to_efield, if_neg (by norm_num : ¬(100 : ℚ) = 0)]
    cases hE : efield_limit occupational_frequency_mhz occupational_efield f with
    | error e => rfl
    | ok v =>
      show Except.ok
        ((10 : ℝ) ^ ((10 * Real.logb 10 (((100 : ℚ) : ℝ) / 100)) / 20) * v) =
          Except.ok v
      rw [hratio, one_mul]
  · simp [percentage_to_hfield]
  · rw [percentage_to_hfield, if_neg (by norm_num : ¬(100 : ℚ) = 0)]
    cases hH : hfield_limit occupational_frequency_mhz occupational_hfield f with
    | error e => rfl
    | ok v =>
      show Except.ok
        ((10 : ℝ) ^ ((10 * Real.logb 10 (((100 : ℚ) : ℝ) / 100)) / 20) * v) =
          Except.ok v
      rw [hratio, one_mul]

/-- Claim C8, witness — at the first table frequency 0.003 MHz, 100 % maps
exactly to the table's E-field limit. -/
theorem percentage_conversion_identity_witness :
    percentage_to_efield occupational_frequency_mhz occupational_efield
      100 (3/1000) =
    efield_limit occupational_frequency_mhz occupational_efield (3/1000) :=
  (percentage_conversion_identity (3/1000) mem_occupational_first).2.1

/-- Claim C6, witness — a concrete 12-field reply with unparsable optional
numeric fields (`x`) returns the six mandatory fields and no optional
fields. -/
theorem probe_info_optional_fields_absent_witness :
    get_probe_info ("a,b,c,d,e,f,x,x,x,x,s,n;".data) = .ok {
      product_name := ['a'], production_id := ['b'], serial_number := ['c'],
      calibration_date := ['d'], calibration_due := ['e'], field_type := ['f'],
      e_field_lower_frequency_hz := none, e_field_upper_frequency_hz := none,
      h_field_lower_frequency_hz := none, h_field_upper_frequency_hz := none,
      shaped := none, standard_name := none } :=
  (probe_info_optional_fields_absent ("a,b,c,d,e,f,x,x,x,x,s,n;".data)
    ['a'] ['b'] ['c'] ['d'] ['e'] ['f'] ['x'] ['x'] ['x'] ['x'] ['s'] ['n']
    (by decide) (by decide) (by decide) (by decide) (by decide)).1
